import Mathlib

/-!
Shallow embedding of the elysia-discord plugin (TypeScript) in Lean 4.

Source files embedded:
- src/core/discord-helper.ts : DiscordHelper (on, handle, reply, deferReply,
  editReply, followUp)
- src/plugin/elysia-discord.ts : verifyDiscordSignature, the discord plugin
  factory with its onRequest hook and derive step
- src/errors/index.ts : the error classes
- the logger source (DiscordLogger.logData truncation)

Modelling conventions: promises are modelled by their settled results
(Except values); external primitives (the ed25519 verifier verifyKey,
JSON.parse, the discord.js platform calls behind interaction.reply etc.)
are parameters of the model, each an Except-valued function whose error
side models a thrown exception; JavaScript string falsiness (undefined or
empty) is modelled on Option String; wall-clock durations that the code
logs are not computed by the model.
-/

namespace ElysiaDiscord

/-- JavaScript falsiness of an optional string value: undefined or null or
the empty string. Used for the header checks (the code tests
"!signature or !timestamp") and the required-option checks in the plugin
factory. -/
def falsyStr : Option String → Bool
  | none => true
  | some s => s.isEmpty

/-! ### Handler registry (src/types, DiscordHelper.on / handle) -/

/-- Keys of InteractionEventMap: the five event categories plus the
wildcard key "*". -/
inductive EventKey where
  | command
  | button
  | select
  | modal
  | autocomplete
  | wildcard
deriving DecidableEq, Repr

/-- Handler registry: category to ordered list of handlers. The source
keeps a Map and reads absent keys as empty lists (handlers.get(k) or []),
so the model is total. -/
abbrev Registry (H : Type) := EventKey → List H

/-- Empty registry: no handler registered under any key. -/
def emptyRegistry (H : Type) : Registry H := fun _ => []

/-- Model of DiscordHelper.on: append the handler to the list held under
the given key (creating the list when absent). -/
def onRegister {H : Type} (r : Registry H) (k : EventKey) (h : H) : Registry H :=
  fun k' => if k' = k then r k ++ [h] else r k'

/-- Concrete shapes of a held interaction, as discriminated by the
predicate chain in DiscordHelper.handle (isChatInputCommand, isButton,
the four select-menu predicates, isModalSubmit, isAutocomplete); other
covers every shape matching none of them. -/
inductive InteractionKind where
  | chatInputCommand
  | buttonPress
  | stringSelect
  | userSelect
  | roleSelect
  | channelSelect
  | modalSubmit
  | autocomplete
  | other
deriving DecidableEq, Repr

/-- The specific handler key derived from the shape of the held
interaction in DiscordHelper.handle; none when no predicate matches. -/
def handlerKeyOf : InteractionKind → Option EventKey
  | .chatInputCommand => some .command
  | .buttonPress => some .button
  | .stringSelect => some .select
  | .userSelect => some .select
  | .roleSelect => some .select
  | .channelSelect => some .select
  | .modalSubmit => some .modal
  | .autocomplete => some .autocomplete
  | .other => none

/-- The list of handlers that DiscordHelper.handle invokes for a held
interaction: first every wildcard handler, then the handlers of the one
specific key derived from the interaction shape (none when no predicate
matches). The promises array of the source is exactly the image of this
list under application to the interaction. -/
def invokedHandlers {H : Type} (r : Registry H) (k : InteractionKind) : List H :=
  r .wildcard ++ (match handlerKeyOf k with
    | some key => r key
    | none => [])

/-- Logger calls made by DiscordHelper.handle that the specification
observes: the warning when no interaction is held, the success log
(carrying totalHandlers; the duration it also carries is wall-clock and
not modelled), and the error log of the failure path. -/
inductive HandleLog where
  | warnNoInteraction
  | successAll (totalHandlers : Nat)
  | errorFailed
deriving DecidableEq, Repr

/-- Semantics of Promise.all over the settled results of the collected
promises: ok when every promise fulfills, otherwise a rejection taken
from the list. -/
def promiseAll {E : Type} : List (Except E Unit) → Except E Unit
  | [] => .ok ()
  | .ok _ :: rest => promiseAll rest
  | .error e :: _ => .error e

/-- Model of DiscordHelper.handle. Handlers are identified with the
settled results of the promises they return. With no held interaction it
warns and returns; otherwise it awaits all invoked handlers, emits the
success log carrying the handler count when all fulfill, and on a
rejection emits the error log and rethrows. -/
def handle {E : Type} (interaction : Option InteractionKind)
    (r : Registry (Except E Unit)) : Except E Unit × List HandleLog :=
  match interaction with
  | none => (.ok (), [.warnNoInteraction])
  | some k =>
    let promises := invokedHandlers r k
    match promiseAll promises with
    | .ok _ => (.ok (), [.successAll promises.length])
    | .error e => (.error e, [.errorFailed])

/-! ### Reply family (DiscordHelper.reply / deferReply / editReply / followUp) -/

/-- Reverse lookup of the discord.js InteractionType numeric enum, as the
source performs with InteractionType[interaction.type]; none models the
undefined result for an unknown number. -/
def interactionTypeName : Nat → Option String
  | 1 => some "Ping"
  | 2 => some "ApplicationCommand"
  | 3 => some "MessageComponent"
  | 4 => some "ApplicationCommandAutocomplete"
  | 5 => some "ModalSubmit"
  | _ => none

/-- The view of a discord.js interaction that the reply family reads: id,
numeric type, and the result of the external isRepliable predicate. -/
structure InteractionView where
  id : String
  typeNum : Nat
  repliable : Bool
deriving DecidableEq, Repr

/-- Message payload accepted by reply and followUp (content, embeds,
ephemeral flag); embeds are kept opaque. -/
structure ReplyMessage where
  content : Option String := none
  embeds : Option (List String) := none
  ephemeral : Option Bool := none
deriving DecidableEq, Repr

/-- Options accepted by deferReply. -/
structure DeferOptions where
  ephemeral : Option Bool := none
deriving DecidableEq, Repr

/-- Data slot of the stored response record: reply stores the message,
deferReply stores its (optional) options object. -/
inductive ResponseData where
  | message (m : ReplyMessage)
  | deferred (o : Option DeferOptions)
deriving DecidableEq, Repr

/-- Stored response record (this.response): a numeric interaction
response type together with the data that produced it. -/
structure ResponseRecord where
  type : Nat
  data : ResponseData
deriving DecidableEq, Repr

/-- Errors raised by the reply family, from src/errors/index.ts:
InteractionNotRepliableError (a DiscordInteractionError with no id and
the type-name string) and DiscordInteractionError (message, optional
interaction id, optional interaction type name). Both carry the code
INTERACTION_ERROR. -/
inductive HelperError where
  | notRepliable (interactionType : Option String)
  | interactionError (message : String) (interactionId : Option String)
      (interactionType : Option String)
deriving DecidableEq, Repr

/-- Message of InteractionNotRepliableError: the type name, or the word
unknown when the reverse enum lookup produced undefined. -/
def notRepliableMessage (t : Option String) : String :=
  "Interaction of type \"" ++ t.getD "unknown" ++ "\" is not repliable"

/-- Machine-readable code of every reply-family error (both classes pass
INTERACTION_ERROR to the base constructor). -/
def helperErrorCode : HelperError → String := fun _ => "INTERACTION_ERROR"

/-- Result of one reply-family call: the settled result, the stored
response record after the call, and whether the underlying platform call
was attempted at all. -/
structure ReplyOutcome where
  result : Except HelperError Unit
  response : Option ResponseRecord
  networkCalled : Bool
deriving Repr

/-- Model of DiscordHelper.reply. The platform argument is the settled
result of the external interaction.reply call (error side carries the
message string of the thrown value). On success the stored response
record becomes type 4 with the message; a platform failure is wrapped
into a DiscordInteractionError carrying the interaction id and type. -/
def reply (stored : Option ResponseRecord) (i : InteractionView)
    (msg : ReplyMessage) (platform : Except String Unit) : ReplyOutcome :=
  if !i.repliable then
    ⟨.error (.notRepliable (interactionTypeName i.typeNum)), stored, false⟩
  else
    match platform with
    | .ok _ => ⟨.ok (), some ⟨4, .message msg⟩, true⟩
    | .error e =>
        ⟨.error (.interactionError ("Failed to send reply: " ++ e)
          (some i.id) (interactionTypeName i.typeNum)), stored, true⟩

/-- Model of DiscordHelper.deferReply: as reply, but the platform call is
interaction.deferReply and success stores a type 5 record with the
options object. -/
def deferReply (stored : Option ResponseRecord) (i : InteractionView)
    (opts : Option DeferOptions) (platform : Except String Unit) : ReplyOutcome :=
  if !i.repliable then
    ⟨.error (.notRepliable (interactionTypeName i.typeNum)), stored, false⟩
  else
    match platform with
    | .ok _ => ⟨.ok (), some ⟨5, .deferred opts⟩, true⟩
    | .error e =>
        ⟨.error (.interactionError ("Failed to defer reply: " ++ e)
          (some i.id) (interactionTypeName i.typeNum)), stored, true⟩

/-- Model of DiscordHelper.editReply: same precondition and failure
wrapping, but the stored response record is never assigned. -/
def editReply (stored : Option ResponseRecord) (i : InteractionView)
    (_msg : ReplyMessage) (platform : Except String Unit) : ReplyOutcome :=
  if !i.repliable then
    ⟨.error (.notRepliable (interactionTypeName i.typeNum)), stored, false⟩
  else
    match platform with
    | .ok _ => ⟨.ok (), stored, true⟩
    | .error e =>
        ⟨.error (.interactionError ("Failed to edit reply: " ++ e)
          (some i.id) (interactionTypeName i.typeNum)), stored, true⟩

/-- Model of DiscordHelper.followUp: same precondition and failure
wrapping as editReply; the stored response record is never assigned. -/
def followUp (stored : Option ResponseRecord) (i : InteractionView)
    (_msg : ReplyMessage) (platform : Except String Unit) : ReplyOutcome :=
  if !i.repliable then
    ⟨.error (.notRepliable (interactionTypeName i.typeNum)), stored, false⟩
  else
    match platform with
    | .ok _ => ⟨.ok (), stored, true⟩
    | .error e =>
        ⟨.error (.interactionError ("Failed to send follow-up: " ++ e)
          (some i.id) (interactionTypeName i.typeNum)), stored, true⟩

/-! ### Plugin factory and webhook hook (src/plugin/elysia-discord.ts) -/

/-- Options object passed to the discord plugin factory. The fields are
Option to model an untyped JavaScript caller omitting them; verbose
defaults to false via a destructuring default. -/
structure DiscordOptions where
  publicKey : Option String := none
  botToken : Option String := none
  applicationId : Option String := none
  verbose : Option Bool := none
deriving DecidableEq, Repr

/-- ConfigurationError from src/errors/index.ts: message plus the
offending field name (code INVALID_CONFIGURATION). -/
structure ConfigError where
  message : String
  field : String
deriving DecidableEq, Repr

/-- Validated configuration held by a constructed plugin instance. -/
structure PluginConfig where
  publicKey : String
  botToken : String
  applicationId : String
  verbose : Bool
deriving DecidableEq, Repr

/-- Model of the option validation at the top of the discord plugin
factory: each of the three required fields is tested for JavaScript
falsiness in order, and the first falsy one aborts construction with a
ConfigurationError naming it. -/
def discordInit (o : DiscordOptions) : Except ConfigError PluginConfig :=
  if falsyStr o.publicKey then
    .error ⟨"publicKey is required. Get it from Discord Developer Portal.",
      "publicKey"⟩
  else if falsyStr o.botToken then
    .error ⟨"botToken is required. Get it from Discord Developer Portal.",
      "botToken"⟩
  else if falsyStr o.applicationId then
    .error ⟨"applicationId is required. Get it from Discord Developer Portal.",
      "applicationId"⟩
  else
    .ok ⟨o.publicKey.getD "", o.botToken.getD "", o.applicationId.getD "",
      o.verbose.getD false⟩

/-- Lookup of a required option by the field name a ConfigurationError
carries, used to state that the error names a field that is indeed
missing or empty. -/
def requiredField (o : DiscordOptions) : String → Option String
  | "publicKey" => o.publicKey
  | "botToken" => o.botToken
  | "applicationId" => o.applicationId
  | _ => none

/-- Model of the verifyDiscordSignature wrapper: delegate to the external
verifyKey primitive and recover any thrown value as false. The primitive
is a parameter; its error side models a throw. -/
def verifyDiscordSignature
    (verifyKey : String → String → String → String → Except String Bool)
    (body signature timestamp publicKey : String) : Bool :=
  match verifyKey body signature timestamp publicKey with
  | .ok v => v
  | .error _ => false

/-- Payload produced by JSON.parse in the hook: the numeric discriminant
read as interaction.type (none when the field is absent or not a
number), and every other field kept opaque in rest. -/
structure Payload (α : Type) where
  type : Option Int
  rest : α
deriving DecidableEq, Repr

/-- Bodies the onRequest hook can return early: the JSON error objects
(single error field) and the PING acknowledgment object whose single
field type holds 1. -/
inductive HookBody where
  | errorBody (error : String)
  | pingAck
deriving DecidableEq, Repr

/-- Result of one run of the onRequest hook: passthrough (non-POST, or a
stored interaction falling through to the route), or an early return
with a status and body. The stored case records the parsed payload
written into the request store. -/
inductive HookResult (α : Type) where
  | passthrough
  | earlyReturn (status : Nat) (body : HookBody)
  | stored (p : Payload α)
deriving DecidableEq, Repr

/-- The inbound request as the hook reads it: method, the two signature
headers (none when absent), and the result of awaiting request.text()
(error side models a read failure). -/
structure RequestModel where
  method : String
  signatureHeader : Option String
  timestampHeader : Option String
  bodyText : Except String String
deriving Repr

/-- Model of the onRequest hook of the discord plugin: ignore non-POST;
401 on a falsy signature or timestamp header; 400 when the body read
fails; 401 when the wrapped signature verification returns false; 400
when JSON.parse throws; 200 with the PING acknowledgment when the parsed
discriminant is 1; otherwise store the payload and fall through. The
parseJson parameter is the external JSON.parse primitive. -/
def onRequest {α : Type} (publicKey : String)
    (verifyKey : String → String → String → String → Except String Bool)
    (parseJson : String → Except String (Payload α))
    (req : RequestModel) : HookResult α :=
  if req.method ≠ "POST" then
    .passthrough
  else if falsyStr req.signatureHeader || falsyStr req.timestampHeader then
    .earlyReturn 401 (.errorBody "Missing signature headers")
  else
    match req.bodyText with
    | .error _ => .earlyReturn 400 (.errorBody "Failed to read request body")
    | .ok body =>
      if !(verifyDiscordSignature verifyKey body (req.signatureHeader.getD "")
            (req.timestampHeader.getD "") publicKey) then
        .earlyReturn 401 (.errorBody "Invalid signature")
      else
        match parseJson body with
        | .error _ => .earlyReturn 400 (.errorBody "Invalid JSON body")
        | .ok p =>
          if p.type = some 1 then
            .earlyReturn 200 .pingAck
          else
            .stored p

/-- The discord-interaction store slot after the hook ran: the parsed
payload on the stored path, null on every other path. -/
def storedInteraction {α : Type} : HookResult α → Option (Payload α)
  | .stored p => some p
  | _ => none

/-- Arguments with which the derive step constructs a DiscordHelper. -/
structure HelperInit (α : Type) where
  botToken : String
  applicationId : String
  interaction : Payload α
deriving DecidableEq, Repr

/-- Model of the derive step: with no stored interaction the discord
context is undefined; otherwise a DiscordHelper is constructed, bound to
the stored interaction and the shared token and application id. -/
def deriveDiscord {α : Type} (botToken applicationId : String)
    (stored : Option (Payload α)) : Option (HelperInit α) :=
  match stored with
  | none => none
  | some i => some ⟨botToken, applicationId, i⟩

/-! ### Logger truncation (DiscordLogger.logData) -/

/-- Maximum length for stringified data before truncation
(DiscordLogger.maxDataLength). -/
def maxDataLength : Nat := 5000

/-- Fixed truncation marker appended by logData. -/
def truncationMarker : String := "\n... (truncated)"

/-- Truncation step of DiscordLogger.logData: a stringified payload
longer than maxDataLength is replaced by its substring(0, maxDataLength)
followed by the fixed marker. JavaScript substring counts UTF-16 units;
the model counts characters. -/
def truncateLogData (s : String) : String :=
  if s.length > maxDataLength then
    String.mk (s.data.take maxDataLength) ++ truncationMarker
  else s

/-! ## Theorems -/

/-- Claim C1: for a held command-type interaction, dispatch invokes exactly
N plus M callbacks when N are registered under the command category and M
under the wildcard category; for a button-type interaction with the same
registrations, exactly the M wildcard callbacks plus the button-registered
callbacks are invoked, and no command-registered callback is invoked (every
invoked callback comes from the wildcard list or the button list). -/
theorem claim1_dispatch_invocation {H : Type} (r : Registry H) :
    (invokedHandlers r .chatInputCommand).length
        = (r .command).length + (r .wildcard).length
    ∧ invokedHandlers r .buttonPress = r .wildcard ++ r .button
    ∧ (invokedHandlers r .buttonPress).length
        = (r .wildcard).length + (r .button).length
    ∧ (∀ h, h ∈ invokedHandlers r .buttonPress →
        h ∈ r .wildcard ∨ h ∈ r .button) := by
  refine ⟨?_, rfl, ?_, ?_⟩
  · simp [invokedHandlers, handlerKeyOf]
    omega
  · simp [invokedHandlers, handlerKeyOf]
  · intro h hmem
    simpa [invokedHandlers, handlerKeyOf] using hmem

/-- Witness for claim C1 at a registry holding two command handlers, one
wildcard handler and one button handler. -/
theorem claim1_dispatch_invocation_witness :
    (invokedHandlers (onRegister (onRegister (onRegister (onRegister
        (emptyRegistry Nat) .command 10) .command 11) .wildcard 20)
        .button 30) .chatInputCommand).length = 2 + 1 :=
  (claim1_dispatch_invocation (onRegister (onRegister (onRegister (onRegister
    (emptyRegistry Nat) .command 10) .command 11) .wildcard 20)
    .button 30)).1.trans (by decide)

/-- Claim C7: logData truncates any serialized payload longer than 5000
characters to exactly its first 5000 characters followed by the fixed
truncation marker, and leaves serializations of length at most 5000
unmodified. -/
theorem claim7_logdata_truncation (s : String) :
    (maxDataLength < s.length →
      truncateLogData s
          = String.mk (s.data.take maxDataLength) ++ truncationMarker
        ∧ (truncateLogData s).length = maxDataLength + truncationMarker.length)
    ∧ (s.length ≤ maxDataLength → truncateLogData s = s) := by
  constructor
  · intro h
    have htr : truncateLogData s
        = String.mk (s.data.take maxDataLength) ++ truncationMarker := by
      unfold truncateLogData
      exact if_pos h
    refine ⟨htr, ?_⟩
    rw [htr, String.length_append]
    have h1 : (String.mk (s.data.take maxDataLength)).length
        = (s.data.take maxDataLength).length := rfl
    have h2 : s.length = s.data.length := rfl
    rw [h1, List.length_take]
    rw [h2] at h
    omega
  · intro h
    unfold truncateLogData
    exact if_neg (by omega)

/-- Witness for claim C7: a 5001-character string is truncated to its
first 5000 characters plus the marker, and a 7-character string is kept
unmodified. -/
theorem claim7_logdata_truncation_witness :
    truncateLogData (String.mk (List.replicate 5001 'a'))
        = String.mk (List.replicate 5000 'a') ++ truncationMarker
    ∧ truncateLogData (String.mk (List.replicate 7 'a'))
        = String.mk (List.replicate 7 'a') := by
  constructor
  · have h := (claim7_logdata_truncation (String.mk (List.replicate 5001 'a'))).1
      (by show maxDataLength < (List.replicate 5001 'a').length
          rw [List.length_replicate]
          norm_num [maxDataLength])
    rw [h.1]
    show String.mk ((List.replicate 5001 'a').take maxDataLength)
        ++ truncationMarker = _
    rw [List.take_replicate]
    norm_num [maxDataLength]
  · exact (claim7_logdata_truncation (String.mk (List.replicate 7 'a'))).2
      (by show (List.replicate 7 'a').length ≤ maxDataLength
          rw [List.length_replicate]
          norm_num [maxDataLength])

/-- Claim C8: plugin construction with any of the three required fields
absent or empty fails with a ConfigurationError naming a field that is
indeed missing or empty, before any request is accepted; with all three
present construction succeeds and the verbose flag defaults to false when
omitted. -/
theorem claim8_config_validation (o : DiscordOptions) :
    ((falsyStr o.publicKey = true ∨ falsyStr o.botToken = true
        ∨ falsyStr o.applicationId = true) →
      ∃ err, discordInit o = .error err
        ∧ (err.field = "publicKey" ∨ err.field = "botToken"
            ∨ err.field = "applicationId")
        ∧ falsyStr (requiredField o err.field) = true)
    ∧ (falsyStr o.publicKey = false → falsyStr o.botToken = false →
        falsyStr o.applicationId = false →
      discordInit o = .ok ⟨o.publicKey.getD "", o.botToken.getD "",
          o.applicationId.getD "", o.verbose.getD false⟩
        ∧ (o.verbose = none →
            ∃ cfg, discordInit o = .ok cfg ∧ cfg.verbose = false)) := by
  constructor
  · intro hmiss
    by_cases h1 : falsyStr o.publicKey = true
    · refine ⟨⟨"publicKey is required. Get it from Discord Developer Portal.",
        "publicKey"⟩, by simp [discordInit, h1], Or.inl rfl, ?_⟩
      simpa [requiredField] using h1
    · by_cases h2 : falsyStr o.botToken = true
      · refine ⟨⟨"botToken is required. Get it from Discord Developer Portal.",
          "botToken"⟩, ?_, Or.inr (Or.inl rfl), ?_⟩
        · simp [discordInit, Bool.eq_false_iff.mpr h1, h2]
        · simpa [requiredField] using h2
      · by_cases h3 : falsyStr o.applicationId = true
        · refine ⟨⟨"applicationId is required. Get it from Discord Developer Portal.",
            "applicationId"⟩, ?_, Or.inr (Or.inr rfl), ?_⟩
          · simp [discordInit, Bool.eq_false_iff.mpr h1,
              Bool.eq_false_iff.mpr h2, h3]
          · simpa [requiredField] using h3
        · rcases hmiss with hm | hm | hm <;> simp [hm] at h1 h2 h3
  · intro h1 h2 h3
    have hok : discordInit o = .ok ⟨o.publicKey.getD "", o.botToken.getD "",
        o.applicationId.getD "", o.verbose.getD false⟩ := by
      simp [discordInit, h1, h2, h3]
    exact ⟨hok, fun hv => ⟨_, hok, by simp [hv]⟩⟩

/-- Witness for claim C8: a missing public key is reported as the missing
field, and a fully populated configuration with verbose omitted succeeds
with verbose false. -/
theorem claim8_config_validation_witness :
    (∃ err, discordInit ⟨none, some "t", some "a", none⟩ = .error err
      ∧ (err.field = "publicKey" ∨ err.field = "botToken"
          ∨ err.field = "applicationId")
      ∧ falsyStr (requiredField ⟨none, some "t", some "a", none⟩ err.field)
          = true)
    ∧ discordInit ⟨some "k", some "t", some "a", none⟩
        = .ok ⟨"k", "t", "a", false⟩ := by
  constructor
  · exact (claim8_config_validation ⟨none, some "t", some "a", none⟩).1
      (Or.inl (by decide))
  · exact ((claim8_config_validation ⟨some "k", some "t", some "a", none⟩).2
      (by decide) (by decide) (by decide)).1

/-- Claim C3: on an interaction whose replyability predicate is false,
each of reply, deferReply, editReply and followUp raises
InteractionNotRepliableError with no platform call attempted; when the
platform call itself fails, each raises a DiscordInteractionError wrapping
the underlying error message with the interaction id and type attached. -/
theorem claim3_reply_family_errors (stored : Option ResponseRecord)
    (i : InteractionView) (msg : ReplyMessage) (opts : Option DeferOptions)
    (platform : Except String Unit) (e : String) :
    (i.repliable = false →
      reply stored i msg platform
          = ⟨.error (.notRepliable (interactionTypeName i.typeNum)), stored, false⟩
      ∧ deferReply stored i opts platform
          = ⟨.error (.notRepliable (interactionTypeName i.typeNum)), stored, false⟩
      ∧ editReply stored i msg platform
          = ⟨.error (.notRepliable (interactionTypeName i.typeNum)), stored, false⟩
      ∧ followUp stored i msg platform
          = ⟨.error (.notRepliable (interactionTypeName i.typeNum)), stored, false⟩)
    ∧ (i.repliable = true →
      reply stored i msg (.error e)
          = ⟨.error (.interactionError ("Failed to send reply: " ++ e)
              (some i.id) (interactionTypeName i.typeNum)), stored, true⟩
      ∧ deferReply stored i opts (.error e)
          = ⟨.error (.interactionError ("Failed to defer reply: " ++ e)
              (some i.id) (interactionTypeName i.typeNum)), stored, true⟩
      ∧ editReply stored i msg (.error e)
          = ⟨.error (.interactionError ("Failed to edit reply: " ++ e)
              (some i.id) (interactionTypeName i.typeNum)), stored, true⟩
      ∧ followUp stored i msg (.error e)
          = ⟨.error (.interactionError ("Failed to send follow-up: " ++ e)
              (some i.id) (interactionTypeName i.typeNum)), stored, true⟩) := by
  constructor
  · intro hrep
    exact ⟨by simp [reply, hrep], by simp [deferReply, hrep],
      by simp [editReply, hrep], by simp [followUp, hrep]⟩
  · intro hrep
    exact ⟨by simp [reply, hrep], by simp [deferReply, hrep],
      by simp [editReply, hrep], by simp [followUp, hrep]⟩

/-- Witness for claim C3: a Ping interaction (type 1, not repliable) makes
reply fail without a platform call, and a repliable command interaction
whose platform call fails yields the wrapping error. -/
theorem claim3_reply_family_errors_witness :
    reply none ⟨"id1", 1, false⟩ {} (.ok ())
        = ⟨.error (.notRepliable (some "Ping")), none, false⟩
    ∧ reply none ⟨"id2", 2, true⟩ {} (.error "boom")
        = ⟨.error (.interactionError "Failed to send reply: boom"
            (some "id2") (some "ApplicationCommand")), none, true⟩ := by
  constructor
  · exact ((claim3_reply_family_errors none ⟨"id1", 1, false⟩ {} none
      (.ok ()) "x").1 rfl).1
  · exact ((claim3_reply_family_errors none ⟨"id2", 2, true⟩ {} none
      (.ok ()) "boom").2 rfl).1

/-- Claim C9: every successful reply stores the immediate channel-message
descriptor (type 4) with the message, every successful deferReply stores
the deferred descriptor (type 5) with the options, and editReply and
followUp leave the stored response record unchanged in every case. -/
theorem claim9_response_record (stored : Option ResponseRecord)
    (i : InteractionView) (msg : ReplyMessage) (opts : Option DeferOptions)
    (platform : Except String Unit) :
    (i.repliable = true →
      (reply stored i msg (.ok ())).response = some ⟨4, .message msg⟩
      ∧ (deferReply stored i opts (.ok ())).response = some ⟨5, .deferred opts⟩)
    ∧ (editReply stored i msg platform).response = stored
    ∧ (followUp stored i msg platform).response = stored := by
  refine ⟨fun hrep => ⟨by simp [reply, hrep], by simp [deferReply, hrep]⟩, ?_, ?_⟩
  · unfold editReply
    rcases hb : i.repliable with _ | _ <;> rcases platform with _ | _ <;> simp
  · unfold followUp
    rcases hb : i.repliable with _ | _ <;> rcases platform with _ | _ <;> simp

/-- Witness for claim C9: on a repliable command interaction, reply stores
the type 4 record, deferReply the type 5 record, and editReply leaves the
record of a prior reply in place. -/
theorem claim9_response_record_witness :
    (reply none ⟨"id3", 2, true⟩ ⟨some "hi", none, none⟩ (.ok ())).response
        = some ⟨4, .message ⟨some "hi", none, none⟩⟩
    ∧ (editReply (some ⟨4, .message ⟨some "hi", none, none⟩⟩) ⟨"id3", 2, true⟩
        ⟨some "later", none, none⟩ (.ok ())).response
        = some ⟨4, .message ⟨some "hi", none, none⟩⟩ := by
  constructor
  · exact ((claim9_response_record none ⟨"id3", 2, true⟩ ⟨some "hi", none, none⟩
      none (.ok ())).1 rfl).1
  · exact (claim9_response_record (some ⟨4, .message ⟨some "hi", none, none⟩⟩)
      ⟨"id3", 2, true⟩ ⟨some "later", none, none⟩ none (.ok ())).2.1

/-- Claim C2: every POST request whose body passes signature verification
and parses as JSON with discriminant 1 is answered with status 200 and the
PING acknowledgment body, whatever the other fields of the payload hold,
and no Event Router is constructed for that request. -/
theorem claim2_ping_handshake {α : Type} (publicKey botToken applicationId : String)
    (verifyKey : String → String → String → String → Except String Bool)
    (parseJson : String → Except String (Payload α))
    (req : RequestModel) (body : String) (p : Payload α)
    (hm : req.method = "POST")
    (hs : falsyStr req.signatureHeader = false)
    (ht : falsyStr req.timestampHeader = false)
    (hb : req.bodyText = .ok body)
    (hv : verifyDiscordSignature verifyKey body (req.signatureHeader.getD "")
        (req.timestampHeader.getD "") publicKey = true)
    (hp : parseJson body = .ok p)
    (hping : p.type = some 1) :
    onRequest publicKey verifyKey parseJson req = .earlyReturn 200 .pingAck
    ∧ deriveDiscord botToken applicationId
        (storedInteraction (onRequest publicKey verifyKey parseJson req))
        = none := by
  have h1 : onRequest publicKey verifyKey parseJson req
      = .earlyReturn 200 .pingAck := by
    unfold onRequest
    rw [hm, hb]
    simp [hs, ht, hv, hp, hping]
  exact ⟨h1, by rw [h1]; rfl⟩

/-- Witness for claim C2: a verified POST carrying a type 1 payload is
answered with 200 and the acknowledgment, with no helper derived. -/
theorem claim2_ping_handshake_witness :
    onRequest "pk" (fun _ _ _ _ => .ok true)
        (fun _ => .ok (⟨some 1, ()⟩ : Payload Unit))
        ⟨"POST", some "sig", some "ts", .ok "body"⟩
        = .earlyReturn 200 .pingAck
    ∧ deriveDiscord "bt" "ai" (storedInteraction (onRequest "pk"
        (fun _ _ _ _ => .ok true) (fun _ => .ok (⟨some 1, ()⟩ : Payload Unit))
        ⟨"POST", some "sig", some "ts", .ok "body"⟩)) = none :=
  claim2_ping_handshake "pk" "bt" "ai" (fun _ _ _ _ => .ok true)
    (fun _ => .ok (⟨some 1, ()⟩ : Payload Unit))
    ⟨"POST", some "sig", some "ts", .ok "body"⟩ "body" ⟨some 1, ()⟩
    rfl rfl rfl rfl rfl rfl rfl

/-- Claim C4: every POST request missing the signature header or the
timestamp header is answered with 401 and the explicit JSON error body, no
interaction is stored, no Event Router is derived, and nothing else about
the request (body, verifier, parser) influences the result. -/
theorem claim4_missing_headers {α : Type} (publicKey botToken applicationId : String)
    (verifyKey verifyKey2 : String → String → String → String → Except String Bool)
    (parseJson parseJson2 : String → Except String (Payload α))
    (req : RequestModel) (bodyText2 : Except String String)
    (hm : req.method = "POST")
    (hmiss : req.signatureHeader = none ∨ req.timestampHeader = none) :
    onRequest publicKey verifyKey parseJson req
        = .earlyReturn 401 (.errorBody "Missing signature headers")
    ∧ storedInteraction (onRequest publicKey verifyKey parseJson req) = none
    ∧ deriveDiscord botToken applicationId
        (storedInteraction (onRequest publicKey verifyKey parseJson req)) = none
    ∧ onRequest publicKey verifyKey parseJson req
        = onRequest publicKey verifyKey2 parseJson2
            { req with bodyText := bodyText2 } := by
  have h1 : onRequest publicKey verifyKey parseJson req
      = .earlyReturn 401 (.errorBody "Missing signature headers") := by
    unfold onRequest
    rw [hm]
    rcases hmiss with h | h <;> simp [h, falsyStr]
  have h2 : onRequest publicKey verifyKey2 parseJson2
      { req with bodyText := bodyText2 }
      = .earlyReturn 401 (.errorBody "Missing signature headers") := by
    unfold onRequest
    rcases hmiss with h | h <;> simp [hm, h, falsyStr]
  exact ⟨h1, by rw [h1]; rfl, by rw [h1]; rfl, h1.trans h2.symm⟩

/-- Witness for claim C4: a POST with no signature header is rejected with
401 and no stored interaction or derived helper. -/
theorem claim4_missing_headers_witness :
    onRequest "pk" (fun _ _ _ _ => .ok true)
        (fun _ => .ok (⟨some 2, ()⟩ : Payload Unit))
        ⟨"POST", none, some "ts", .ok "body"⟩
        = .earlyReturn 401 (.errorBody "Missing signature headers")
    ∧ storedInteraction (onRequest "pk" (fun _ _ _ _ => .ok true)
        (fun _ => .ok (⟨some 2, ()⟩ : Payload Unit))
        ⟨"POST", none, some "ts", .ok "body"⟩) = none := by
  have h := claim4_missing_headers "pk" "bt" "ai" (fun _ _ _ _ => .ok true)
    (fun _ _ _ _ => .ok true) (fun _ => .ok (⟨some 2, ()⟩ : Payload Unit))
    (fun _ => .ok (⟨some 2, ()⟩ : Payload Unit))
    ⟨"POST", none, some "ts", .ok "body"⟩ (.ok "body") rfl (Or.inl rfl)
  exact ⟨h.1, h.2.1⟩

/-- Claim C5: every POST request whose body fails the external signature
verification predicate is answered with 401 and the Invalid signature
error body, no matter what the payload parses to, and no interaction is
stored for the request. -/
theorem claim5_invalid_signature {α : Type} (publicKey : String)
    (verifyKey : String → String → String → String → Except String Bool)
    (parseJson : String → Except String (Payload α))
    (req : RequestModel) (body : String)
    (hm : req.method = "POST")
    (hs : falsyStr req.signatureHeader = false)
    (ht : falsyStr req.timestampHeader = false)
    (hb : req.bodyText = .ok body)
    (hv : verifyDiscordSignature verifyKey body (req.signatureHeader.getD "")
        (req.timestampHeader.getD "") publicKey = false) :
    onRequest publicKey verifyKey parseJson req
        = .earlyReturn 401 (.errorBody "Invalid signature")
    ∧ storedInteraction (onRequest publicKey verifyKey parseJson req)
        = none := by
  have h1 : onRequest publicKey verifyKey parseJson req
      = .earlyReturn 401 (.errorBody "Invalid signature") := by
    unfold onRequest
    rw [hm, hb]
    simp [hs, ht, hv]
  exact ⟨h1, by rw [h1]; rfl⟩

/-- Witness for claim C5: a POST whose verifier returns false is rejected
with 401 even though its payload parses as a well-formed interaction. -/
theorem claim5_invalid_signature_witness :
    onRequest "pk" (fun _ _ _ _ => .ok false)
        (fun _ => .ok (⟨some 2, ()⟩ : Payload Unit))
        ⟨"POST", some "sig", some "ts", .ok "body"⟩
        = .earlyReturn 401 (.errorBody "Invalid signature")
    ∧ storedInteraction (onRequest "pk" (fun _ _ _ _ => .ok false)
        (fun _ => .ok (⟨some 2, ()⟩ : Payload Unit))
        ⟨"POST", some "sig", some "ts", .ok "body"⟩) = none :=
  claim5_invalid_signature "pk" (fun _ _ _ _ => .ok false)
    (fun _ => .ok (⟨some 2, ()⟩ : Payload Unit))
    ⟨"POST", some "sig", some "ts", .ok "body"⟩ "body" rfl rfl rfl rfl rfl

/-- Claim C10: the verifyDiscordSignature wrapper is total with respect to
verifier faults: whenever the external primitive throws (returns its error
side), the wrapper returns false, so the hook answers 401 with the Invalid
signature body and stores no interaction, and the fault never escapes. -/
theorem claim10_verifier_total {α : Type} (publicKey : String)
    (verifyKey : String → String → String → String → Except String Bool)
    (parseJson : String → Except String (Payload α))
    (req : RequestModel) (body ex : String)
    (hm : req.method = "POST")
    (hs : falsyStr req.signatureHeader = false)
    (ht : falsyStr req.timestampHeader = false)
    (hb : req.bodyText = .ok body)
    (hthrow : verifyKey body (req.signatureHeader.getD "")
        (req.timestampHeader.getD "") publicKey = .error ex) :
    verifyDiscordSignature verifyKey body (req.signatureHeader.getD "")
        (req.timestampHeader.getD "") publicKey = false
    ∧ onRequest publicKey verifyKey parseJson req
        = .earlyReturn 401 (.errorBody "Invalid signature")
    ∧ storedInteraction (onRequest publicKey verifyKey parseJson req)
        = none := by
  have hfalse : verifyDiscordSignature verifyKey body
      (req.signatureHeader.getD "") (req.timestampHeader.getD "") publicKey
      = false := by
    unfold verifyDiscordSignature
    rw [hthrow]
  have h1 : onRequest publicKey verifyKey parseJson req
      = .earlyReturn 401 (.errorBody "Invalid signature") := by
    unfold onRequest
    rw [hm, hb]
    simp [hs, ht, hfalse]
  exact ⟨hfalse, h1, by rw [h1]; rfl⟩

/-- Witness for claim C10: a verifier that always throws makes the wrapper
return false and the hook answer 401 without storing an interaction. -/
theorem claim10_verifier_total_witness :
    verifyDiscordSignature (fun _ _ _ _ => .error "ed25519 blew up") "body"
        ((some "sig").getD "") ((some "ts").getD "") "pk" = false
    ∧ onRequest "pk" (fun _ _ _ _ => .error "ed25519 blew up")
        (fun _ => .ok (⟨some 2, ()⟩ : Payload Unit))
        ⟨"POST", some "sig", some "ts", .ok "body"⟩
        = .earlyReturn 401 (.errorBody "Invalid signature") := by
  have h := claim10_verifier_total "pk" (fun _ _ _ _ => .error "ed25519 blew up")
    (fun _ => .ok (⟨some 2, ()⟩ : Payload Unit))
    ⟨"POST", some "sig", some "ts", .ok "body"⟩ "body" "ed25519 blew up"
    rfl rfl rfl rfl rfl
  exact ⟨h.1, h.2.1⟩

/-- Promise.all over settled results fulfills exactly when every collected
promise fulfills. -/
theorem promiseAll_ok_iff {E : Type} (l : List (Except E Unit)) :
    promiseAll l = .ok () ↔ ∀ x ∈ l, x = .ok () := by
  induction l with
  | nil => simp [promiseAll]
  | cons x rest ih =>
    cases x with
    | ok u =>
      cases u
      simp [promiseAll, ih]
    | error e => simp [promiseAll]

/-- Claim C6: when a held interaction is dispatched, if any invoked
callback rejects then the overall result of handle rejects; the success
log carrying the total handler count is emitted exactly when every
callback settles successfully, and on the failure path the error log is
emitted instead. -/
theorem claim6_dispatch_rejection_logging {E : Type} (k : InteractionKind)
    (r : Registry (Except E Unit)) :
    ((∃ e, Except.error e ∈ invokedHandlers r k) →
        ∃ e, (handle (some k) r).1 = .error e)
    ∧ ((∃ n, HandleLog.successAll n ∈ (handle (some k) r).2)
        ↔ ∀ p ∈ invokedHandlers r k, p = .ok ())
    ∧ (∀ n, HandleLog.successAll n ∈ (handle (some k) r).2 →
        n = (invokedHandlers r k).length)
    ∧ ((∃ e, (handle (some k) r).1 = .error e) →
        HandleLog.errorFailed ∈ (handle (some k) r).2
        ∧ ¬ ∃ n, HandleLog.successAll n ∈ (handle (some k) r).2) := by
  cases hp : promiseAll (invokedHandlers r k) with
  | ok u =>
    cases u
    have hall : ∀ p ∈ invokedHandlers r k, p = .ok () :=
      (promiseAll_ok_iff _).mp hp
    have hh : handle (some k) r
        = (.ok (), [.successAll (invokedHandlers r k).length]) := by
      simp [handle, hp]
    rw [hh]
    refine ⟨?_, ?_, ?_, ?_⟩
    · rintro ⟨e, he⟩
      have := hall _ he
      simp at this
    · exact iff_of_true ⟨(invokedHandlers r k).length, by simp⟩ hall
    · intro n hn
      simpa using hn
    · rintro ⟨e, he⟩
      simp at he
  | error e =>
    have hh : handle (some k) r = (.error e, [.errorFailed]) := by
      simp [handle, hp]
    rw [hh]
    refine ⟨fun _ => ⟨e, rfl⟩, ?_, ?_, ?_⟩
    · constructor
      · rintro ⟨n, hn⟩
        simp at hn
      · intro hall
        have hok := (promiseAll_ok_iff _).mpr hall
        rw [hp] at hok
        simp at hok
    · intro n hn
      simp at hn
    · intro _
      refine ⟨by simp, ?_⟩
      rintro ⟨n, hn⟩
      simp at hn

/-- Witness for claim C6: with one rejecting wildcard handler and one
fulfilling button handler, dispatch on a button interaction rejects and
emits the error log, not the success log. -/
theorem claim6_dispatch_rejection_logging_witness :
    (handle (some .buttonPress) (onRegister (onRegister
        (emptyRegistry (Except String Unit)) .wildcard (.error "boom"))
        .button (.ok ()))).1 = .error "boom"
    ∧ HandleLog.errorFailed ∈ (handle (some .buttonPress) (onRegister
        (onRegister (emptyRegistry (Except String Unit)) .wildcard
        (.error "boom")) .button (.ok ()))).2 := by
  have h := (claim6_dispatch_rejection_logging .buttonPress (onRegister
      (onRegister (emptyRegistry (Except String Unit)) .wildcard
      (.error "boom")) .button (.ok ()))).2.2.2 ⟨"boom", rfl⟩
  exact ⟨rfl, h.1⟩

end ElysiaDiscord
